import Mathlib

/-
Verification development for the Rustune MOD player.

The Rust sources are shallowly embedded: `u8`/`u16`/`u32`/`usize` values are
modelled as `Nat` with explicit `% 2^w` wherever the machine width matters,
`i8` sample data as `Int`, fallible operations as `Except`/`Option` (a `none`
or `.error` result models a Rust panic or `Err`), and `&mut self` methods as
explicit state passing.  Floating-point fields of the engine (the fractional
playback cursor and per-tick step) are represented by their integer part when
a property depends on them, and are otherwise omitted; no claim below depends
on fractional arithmetic.
-/

set_option maxHeartbeats 1000000

namespace Rustune

/-- Saturating 8-bit addition, embedding Rust `u8::saturating_add`. -/
def satAdd8 (a b : Nat) : Nat := min (a + b) 255

/-- Saturating 16-bit addition, embedding Rust `u16::saturating_add`.
Saturating subtraction on unsigned values coincides with truncated `Nat`
subtraction and is written `a - b` below. -/
def satAdd16 (a b : Nat) : Nat := min (a + b) 65535

/-- Embeds `split_nibbles` from `src/engine/mod_engine.rs`:

  `let x = (x & 0xF0) >> 4; let y = x & 0x0F; (x, y)`

The second line reads the rebound `x` (the high nibble), so both components
are the high nibble of the argument; the low nibble is never returned. -/
def split_nibbles (v : Nat) : Nat × Nat :=
  let x := (v % 256) / 16
  let y := x % 16
  (x, y)

/-- Per-channel mutable engine state (`ChannelState` in `mod_engine.rs`).
`position_in_sample` holds the integer part of the `f32` playback cursor;
the derived `sample_step : f32` field carries no information any claim
depends on and is omitted. -/
structure ChannelState where
  sample_index : Nat
  volume : Nat
  period : Nat
  effect : Nat
  effect_arg : Nat
  panning : Nat
  position_in_sample : Nat
  base_period : Nat
  repeat_offset : Nat
  repeat_length : Nat
  arp_counter : Nat
deriving Repr, DecidableEq

/-- Embeds `ChannelState::default`. -/
def ChannelState.default : ChannelState :=
  { sample_index := 0
    volume := 64
    period := 0
    effect := 0
    effect_arg := 0
    panning := 128
    position_in_sample := 0
    base_period := 0
    repeat_offset := 0
    repeat_length := 0
    arp_counter := 0 }

/-- Embeds the `SubEffect` enum of `mod_engine.rs`. -/
inductive SubEffect where
  | FinePortmamentoUp (step : Nat)
  | FinePortamentoDown (step : Nat)
  | RetriggerNote (ticks : Nat)
deriving Repr, DecidableEq

/-- Embeds the `Effect` enum of `mod_engine.rs`. -/
inductive Effect where
  | Arpeggio (x y : Nat)
  | PortamentoUp (step : Nat)
  | PortamentoDown (step : Nat)
  | TonePortamento (step : Nat)
  | Vibrato (speed depth : Nat)
  | VolumeSlide (slide_up slide_down : Nat)
  | PositionJump
  | SetVolume
  | PatternBreak
  | ExtendedEffect (sub : SubEffect)
  | SetSpeed (v : Nat)
  | SetTempo (v : Nat)
deriving Repr, DecidableEq

/-- Embeds `Effect::from_effect_and_arg_bytes`.  `none` models the Rust
`return None` arms (unknown effect or unknown extended sub-effect). -/
def Effect.from_effect_and_arg_bytes (effect arg : Nat) : Option Effect :=
  match effect with
  | 0x0 =>
    let (x, y) := split_nibbles arg
    some (.Arpeggio x y)
  | 0x1 => some (.PortamentoUp arg)
  | 0x2 => some (.PortamentoDown arg)
  | 0x3 => some (.TonePortamento arg)
  | 0x4 =>
    let (speed, depth) := split_nibbles arg
    some (.Vibrato speed depth)
  | 0xA =>
    let (slide_up, slide_down) := split_nibbles arg
    some (.VolumeSlide slide_up slide_down)
  | 0xB => some .PositionJump
  | 0xC => some .SetVolume
  | 0xD => some .PatternBreak
  | 0xE =>
    let (sub, sub_arg) := split_nibbles arg
    match sub with
    | 0x1 => some (.ExtendedEffect (.FinePortmamentoUp sub_arg))
    | 0x2 => some (.ExtendedEffect (.FinePortamentoDown sub_arg))
    | 0x9 => some (.ExtendedEffect (.RetriggerNote sub_arg))
    | _ => none
  | 0xF =>
    if arg ≤ 0x1F then some (.SetSpeed arg) else some (.SetTempo arg)
  | _ => none

/-- Embeds `ChannelState::process_effects`.  A `none` result models a Rust
panic: either the `panic!` on an unknown effect, or the arithmetic fault of
`tick % note_tick` when `note_tick == 0`.  Branch bodies that are `TODO`
comments in the source (vibrato, position jump, pattern break, set
speed/tempo, the retrigger body) leave the state unchanged, exactly as the
compiled Rust does. -/
def ChannelState.process_effects (st : ChannelState) (tick : Nat) : Option ChannelState :=
  match Effect.from_effect_and_arg_bytes st.effect st.effect_arg with
  | none => none
  | some e =>
    match e with
    | .Arpeggio x y =>
      if tick > 0 then
        if x = 0 ∧ y = 0 then some st
        else if tick = 0 ∨ tick = 1 then
          let st1 := if tick = 1 then { st with arp_counter := 1 } else { st with arp_counter := 0 }
          some { st1 with period := st1.base_period }
        else
          let offset :=
            match st.arp_counter % 3 with
            | 1 => x
            | 2 => y
            | _ => 0
          some { st with period := satAdd16 st.base_period offset,
                         arp_counter := (st.arp_counter + 1) % 256 }
      else some st
    | .PortamentoUp step =>
      if tick > 0 then
        let p := st.base_period - step
        some { st with period := p, base_period := p }
      else some st
    | .PortamentoDown step =>
      if tick > 0 then
        let p := satAdd16 st.base_period step
        some { st with period := p, base_period := p }
      else some st
    | .TonePortamento step =>
      if tick > 0 then
        let target_period := st.period
        if st.period > target_period then
          some { st with period := st.base_period - step }
        else if st.period < target_period then
          some { st with period := satAdd16 st.base_period step }
        else some st
      else some st
    | .Vibrato _ _ => some st
    | .VolumeSlide slide_up slide_down =>
      if tick > 0 then
        if slide_up > 0 then
          some { st with volume := satAdd8 st.volume slide_up }
        else if slide_down > 0 then
          some { st with volume := st.volume - slide_down }
        else some st
      else some st
    | .PositionJump => some st
    | .SetVolume =>
      if tick = 0 then some { st with volume := min st.effect_arg 64 } else some st
    | .PatternBreak => some st
    | .ExtendedEffect sub =>
      match sub with
      | .FinePortmamentoUp step =>
        if tick = 0 then some { st with period := st.base_period - step } else some st
      | .FinePortamentoDown step =>
        if tick = 0 then some { st with period := satAdd16 st.base_period step } else some st
      | .RetriggerNote note_tick =>
        if note_tick = 0 then none else some st
    | .SetSpeed _ => some st
    | .SetTempo _ => some st

/-- C2: the claim says a volume slide (effect `0xA`) keeps the stored volume
inside `[0, 64]`, adding the high nibble or subtracting the low nibble of the
argument.  The code violates both parts: sliding up uses `saturating_add`
with no clamp at 64, so volume 64 with argument `0x10` on tick 1 becomes 65;
and because `split_nibbles` returns the high nibble twice, argument `0x05`
(low nibble 5) is a no-op instead of subtracting 5. -/
theorem volume_slide_code_bug :
    (ChannelState.process_effects { ChannelState.default with volume := 64, effect := 0xA, effect_arg := 0x10 } 1
      = some { ChannelState.default with volume := 65, effect := 0xA, effect_arg := 0x10 })
    ∧ ¬ (65 ≤ 64)
    ∧ (ChannelState.process_effects { ChannelState.default with volume := 10, effect := 0xA, effect_arg := 0x05 } 1
      = some { ChannelState.default with volume := 10, effect := 0xA, effect_arg := 0x05 }) := by
  refine ⟨by decide, by decide, by decide⟩

/-- C4: tone portamento (effect `0x3`) never changes the channel state at
all: the code sets `target_period` to the current period and then compares
the current period against itself, so both slide branches are unreachable.
The claim that the period moves toward a trigger-time target is false; no
trigger-time target even exists in `ChannelState`. -/
theorem tone_portamento_no_motion (st : ChannelState) (tick : Nat) (h : st.effect = 3) :
    st.process_effects tick = some st := by
  unfold ChannelState.process_effects Effect.from_effect_and_arg_bytes
  rw [h]
  by_cases ht : tick > 0 <;> simp [ht]

/-- C4 witness: a concrete sliding state (period 500, base 500, argument 4,
tick 1) is left untouched by the tone-portamento effect. -/
theorem tone_portamento_no_motion_witness :
    ChannelState.process_effects { ChannelState.default with period := 500, base_period := 500, effect := 3, effect_arg := 4 } 1
      = some { ChannelState.default with period := 500, base_period := 500, effect := 3, effect_arg := 4 } :=
  tone_portamento_no_motion _ 1 (by decide)

/-- C5: with effect `0xE` and argument `0x90` (retrigger, low nibble 0) the
effect interpreter never performs a modulus by zero: `process_effects`
returns `some` state on every tick.  (The divisor that reaches the
`tick % note_tick` test is the duplicated high nibble 9, never the zero low
nibble, because of the way `split_nibbles` is written.) -/
theorem retrigger_no_fault (st : ChannelState) (tick : Nat)
    (he : st.effect = 0xE) (ha : st.effect_arg = 0x90) :
    (st.process_effects tick).isSome := by
  unfold ChannelState.process_effects Effect.from_effect_and_arg_bytes
  rw [he, ha]
  simp [split_nibbles]

/-- C5 witness: the default channel state carrying effect `0xE`/argument
`0x90` is processed without an arithmetic fault on tick 0. -/
theorem retrigger_no_fault_witness :
    (ChannelState.process_effects { ChannelState.default with effect := 0xE, effect_arg := 0x90 } 0).isSome :=
  retrigger_no_fault _ 0 (by decide) (by decide)

/-- Sequencer cursor of `ModEngine` (`mod_engine.rs`): the fields consulted
by `is_finished` and by the row/pattern advancement at the tail of
`next_tick`.  `pattern_count` stands for `self.song.patterns.len()`. -/
structure EngineCursor where
  current_row : Nat
  current_pattern : Nat
  tick : Nat
  speed : Nat
  pattern_count : Nat
deriving Repr, DecidableEq

/-- Embeds `ModEngine::is_finished`: `return self.current_row == 64;`. -/
def is_finished (e : EngineCursor) : Bool := e.current_row == 64

/-- Embeds the cursor-advancement tail of `ModEngine::next_tick`
(`self.tick += 1; if self.tick >= self.speed { ... }`), with the `u8` tick
increment wrapped mod 256. -/
def advance_cursor (e : EngineCursor) : EngineCursor :=
  let t := (e.tick + 1) % 256
  if t ≥ e.speed then
    let row := e.current_row + 1
    if row = 64 then
      let pat := e.current_pattern + 1
      { e with tick := 0, current_row := 0,
               current_pattern := if pat ≥ e.pattern_count then 0 else pat }
    else { e with tick := 0, current_row := row }
  else { e with tick := t }

/-- C1: `is_finished` is `current_row == 64`, not a pattern-table-exhaustion
test.  First conjunct: a state on pattern 0 of a 2-pattern song with
`current_row = 64` (an ordinary row boundary, song unfinished) is reported
finished.  Remaining conjuncts: advancing the cursor from the last tick of
the last row of the last pattern wraps the pattern index back to 0, and the
resulting state — the song having completed a full traversal — is reported
not finished.  So `is_finished` is true at non-final row boundaries and
false after actual completion, contradicting the claim. -/
theorem is_finished_row64_code_bug :
    is_finished { current_row := 64, current_pattern := 0, tick := 0, speed := 6, pattern_count := 2 } = true
    ∧ advance_cursor { current_row := 63, current_pattern := 1, tick := 5, speed := 6, pattern_count := 2 }
      = { current_row := 0, current_pattern := 0, tick := 0, speed := 6, pattern_count := 2 }
    ∧ is_finished (advance_cursor { current_row := 63, current_pattern := 1, tick := 5, speed := 6, pattern_count := 2 }) = false := by
  refine ⟨by decide, by decide, by decide⟩

/-- Embeds the per-channel sample fetch of `ModEngine::get_audio_buffer`
(`mod_engine.rs`): with `pos` the integer part of the fractional cursor,
the code fetches `sample[pos]` when `pos < sample.len()` and `0.0`
otherwise.  The value is modelled at the raw `i8` level (the subsequent
`/ 128.0` scaling maps zero to zero and nonzero to nonzero).  The channel
state `ch` — including its `repeat_offset`/`repeat_length` loop fields — is
in scope exactly as in the source, and exactly as in the source it is not
consulted by the fetch. -/
def fetch_sample_value (data : List Int) (ch : ChannelState) (pos : Nat) : Int :=
  if pos < data.length then data.getD pos 0 else 0

/-- C3 counterexample: a channel with loop length 2 (> 0) over the PCM data
`[100, 50]` and cursor position 2 (past the end).  The claim says a sample
from the loop region is fetched instead of silence; but every sample in the
loop region is nonzero while the code fetches 0. -/
theorem fetch_loop_ignored_cex :
    fetch_sample_value [100, 50] { ChannelState.default with repeat_offset := 0, repeat_length := 2 } 2 = 0
    ∧ ({ ChannelState.default with repeat_offset := 0, repeat_length := 2 } : ChannelState).repeat_length > 0
    ∧ (∀ i, i < 2 → ([100, 50] : List Int).getD i 0 ≠ 0) := by
  refine ⟨by decide, by decide, by decide⟩

/-- C3 amended: whenever the integer cursor position is at or past the end
of the active instrument's PCM data, the fetched sample value is zero,
regardless of the channel's loop length — no wrap into the loop region
occurs. -/
theorem fetch_past_end_zero (data : List Int) (ch : ChannelState) (pos : Nat)
    (h : data.length ≤ pos) : fetch_sample_value data ch pos = 0 := by
  unfold fetch_sample_value
  rw [if_neg (by omega)]

/-- C3 amended witness: the counterexample channel, evaluated through the
amended statement. -/
theorem fetch_past_end_zero_witness :
    fetch_sample_value [100, 50] { ChannelState.default with repeat_offset := 0, repeat_length := 2 } 2 = 0 :=
  fetch_past_end_zero _ _ 2 (by decide)

/-- Fault kinds of `SongError` (`song.rs`); the formatted message payloads
carry no information the claims depend on and are dropped. -/
inductive SongError where
  | IoFault
  | ReadFault
deriving Repr, DecidableEq

/-- Embeds the `Encoding` enum of `bytereader.rs`. -/
inductive Encoding where
  | LittleEndian
  | BigEndian
deriving Repr, DecidableEq

/-- Embeds `ByteReader` (`bytereader.rs`): an immutable byte buffer, a
cursor position and the configured byte order. -/
structure ByteReader where
  data : List Nat
  position : Nat
  encoding : Encoding
deriving Repr, DecidableEq

/-- Embeds `ByteReader::new`. -/
def ByteReader.new (data : List Nat) (encoding : Encoding) : ByteReader :=
  { data := data, position := 0, encoding := encoding }

/-- Embeds `ByteReader::seek`: fails when the target exceeds the buffer
length, otherwise returns the old position and the repositioned reader. -/
def ByteReader.seek (r : ByteReader) (pos : Nat) : Except SongError (Nat × ByteReader) :=
  if pos > r.data.length then .error .ReadFault
  else .ok (r.position, { r with position := pos })

/-- Embeds `ByteReader::read_bytes`.  The Rust method mutates `self` only on
success; the model therefore returns the post-state alongside the result,
with the failure case returning the reader unchanged. -/
def ByteReader.read_bytes (r : ByteReader) (count : Nat) :
    Except SongError (List Nat) × ByteReader :=
  if r.position + count > r.data.length then (.error .ReadFault, r)
  else (.ok ((r.data.drop r.position).take count), { r with position := r.position + count })

/-- Validity of a byte sequence as UTF-8, embedding the check performed by
`std::str::from_utf8` in `ByteReader::read_str` (RFC 3629 ranges, surrogates
and overlong encodings rejected). -/
def validUTF8 : List Nat → Bool
  | [] => true
  | b :: rest =>
    if b < 0x80 then validUTF8 rest
    else if 0xC2 ≤ b ∧ b ≤ 0xDF then
      match rest with
      | c1 :: rest2 => decide (0x80 ≤ c1 ∧ c1 ≤ 0xBF) && validUTF8 rest2
      | [] => false
    else if b = 0xE0 then
      match rest with
      | c1 :: c2 :: rest2 =>
        decide (0xA0 ≤ c1 ∧ c1 ≤ 0xBF) && decide (0x80 ≤ c2 ∧ c2 ≤ 0xBF) && validUTF8 rest2
      | _ => false
    else if (0xE1 ≤ b ∧ b ≤ 0xEC) ∨ b = 0xEE ∨ b = 0xEF then
      match rest with
      | c1 :: c2 :: rest2 =>
        decide (0x80 ≤ c1 ∧ c1 ≤ 0xBF) && decide (0x80 ≤ c2 ∧ c2 ≤ 0xBF) && validUTF8 rest2
      | _ => false
    else if b = 0xED then
      match rest with
      | c1 :: c2 :: rest2 =>
        decide (0x80 ≤ c1 ∧ c1 ≤ 0x9F) && decide (0x80 ≤ c2 ∧ c2 ≤ 0xBF) && validUTF8 rest2
      | _ => false
    else if b = 0xF0 then
      match rest with
      | c1 :: c2 :: c3 :: rest2 =>
        decide (0x90 ≤ c1 ∧ c1 ≤ 0xBF) && decide (0x80 ≤ c2 ∧ c2 ≤ 0xBF)
          && decide (0x80 ≤ c3 ∧ c3 ≤ 0xBF) && validUTF8 rest2
      | _ => false
    else if 0xF1 ≤ b ∧ b ≤ 0xF3 then
      match rest with
      | c1 :: c2 :: c3 :: rest2 =>
        decide (0x80 ≤ c1 ∧ c1 ≤ 0xBF) && decide (0x80 ≤ c2 ∧ c2 ≤ 0xBF)
          && decide (0x80 ≤ c3 ∧ c3 ≤ 0xBF) && validUTF8 rest2
      | _ => false
    else if b = 0xF4 then
      match rest with
      | c1 :: c2 :: c3 :: rest2 =>
        decide (0x80 ≤ c1 ∧ c1 ≤ 0x8F) && decide (0x80 ≤ c2 ∧ c2 ≤ 0xBF)
          && decide (0x80 ≤ c3 ∧ c3 ≤ 0xBF) && validUTF8 rest2
      | _ => false
    else false

/-- Trailing-NUL trimming performed by `read_str`
(`trim_end_matches("\0")`), on the byte-level representation of the
decoded string. -/
def trim_end_nuls (s : List Nat) : List Nat :=
  (s.reverse.dropWhile (fun b => b == 0)).reverse

/-- Embeds `ByteReader::read_str`: `read_bytes`, then UTF-8 validation, then
trailing-NUL trimming.  Strings are represented by their byte sequences.
Note that on a UTF-8 error the position has already been advanced by the
successful `read_bytes`, exactly as in the source. -/
def ByteReader.read_str (r : ByteReader) (length : Nat) :
    Except SongError (List Nat) × ByteReader :=
  match r.read_bytes length with
  | (.error _, r1) => (.error .ReadFault, r1)
  | (.ok bytes, r1) =>
    if validUTF8 bytes then (.ok (trim_end_nuls bytes), r1)
    else (.error .ReadFault, r1)

/-- Embeds `ByteReader::read_u8`. -/
def ByteReader.read_u8 (r : ByteReader) : Except SongError Nat × ByteReader :=
  match r.read_bytes 1 with
  | (.error e, r1) => (.error e, r1)
  | (.ok bytes, r1) => (.ok (bytes.getD 0 0), r1)

/-- Embeds `ByteReader::read_i8` (the byte reinterpreted as a signed
value). -/
def ByteReader.read_i8 (r : ByteReader) : Except SongError Int × ByteReader :=
  match r.read_bytes 1 with
  | (.error e, r1) => (.error e, r1)
  | (.ok bytes, r1) =>
    let b := bytes.getD 0 0
    (.ok (if b < 128 then (b : Int) else (b : Int) - 256), r1)

/-- Embeds `ByteReader::read_u16`, honoring the configured byte order. -/
def ByteReader.read_u16 (r : ByteReader) : Except SongError Nat × ByteReader :=
  match r.read_bytes 2 with
  | (.error e, r1) => (.error e, r1)
  | (.ok bytes, r1) =>
    let v :=
      match r.encoding with
      | .BigEndian => bytes.getD 0 0 * 256 + bytes.getD 1 0
      | .LittleEndian => bytes.getD 1 0 * 256 + bytes.getD 0 0
    (.ok v, r1)

/-- C9: bounds behavior of `read_bytes` and the reads built on it.  When
fewer than `n` bytes remain past the cursor, `read_bytes n`, `read_str n`
(and, for `n = 2`, `read_u16`) fail with a Read fault and leave the reader —
in particular its position — unchanged.  On success `read_bytes n` advances
the position by exactly `n` and returns exactly the `n` in-bounds bytes
starting at the old position, touching no byte outside the buffer. -/
theorem read_bytes_bounds (r : ByteReader) (n : Nat) :
    (r.data.length < r.position + n →
      (r.read_bytes n).1 = .error .ReadFault ∧ (r.read_bytes n).2 = r
      ∧ (r.read_str n).1 = .error .ReadFault ∧ (r.read_str n).2 = r)
    ∧ (r.position + n ≤ r.data.length →
      ∃ bytes, (r.read_bytes n).1 = .ok bytes
        ∧ (r.read_bytes n).2.position = r.position + n
        ∧ (r.read_bytes n).2.data = r.data
        ∧ bytes.length = n
        ∧ ∀ i, i < n → bytes.getD i 0 = r.data.getD (r.position + i) 0)
    ∧ (r.data.length < r.position + 2 →
      (r.read_u16).1 = .error .ReadFault ∧ (r.read_u16).2 = r) := by
  refine ⟨fun h => ?_, fun h => ?_, fun h => ?_⟩
  · have hgt : r.position + n > r.data.length := h
    unfold ByteReader.read_str ByteReader.read_bytes
    rw [if_pos hgt]
    exact ⟨rfl, rfl, rfl, rfl⟩
  · unfold ByteReader.read_bytes
    rw [if_neg (by omega)]
    refine ⟨(r.data.drop r.position).take n, rfl, rfl, rfl, ?_, ?_⟩
    · rw [List.length_take, List.length_drop]
      omega
    · intro i hi
      rw [List.getD_eq_getElem?_getD, List.getD_eq_getElem?_getD,
          List.getElem?_take, List.getElem?_drop]
      simp [hi]
  · unfold ByteReader.read_u16 ByteReader.read_bytes
    rw [if_pos (by omega)]
    exact ⟨rfl, rfl⟩

/-- C9 witness: on a concrete 3-byte reader at position 2, a 4-byte read
fails leaving the state unchanged while a 1-byte read succeeds, advancing
the position to 3 and returning the in-range byte. -/
theorem read_bytes_bounds_witness :
    ((ByteReader.read_bytes { data := [7, 8, 9], position := 2, encoding := .BigEndian } 4).1 = .error .ReadFault
      ∧ (ByteReader.read_bytes { data := [7, 8, 9], position := 2, encoding := .BigEndian } 4).2 = { data := [7, 8, 9], position := 2, encoding := .BigEndian })
    ∧ ∃ bytes, (ByteReader.read_bytes { data := [7, 8, 9], position := 2, encoding := .BigEndian } 1).1 = .ok bytes
        ∧ (ByteReader.read_bytes { data := [7, 8, 9], position := 2, encoding := .BigEndian } 1).2.position = 3 := by
  have h1 := (read_bytes_bounds { data := [7, 8, 9], position := 2, encoding := .BigEndian } 4).1 (by decide)
  have h2 := (read_bytes_bounds { data := [7, 8, 9], position := 2, encoding := .BigEndian } 1).2.1 (by decide)
  obtain ⟨bytes, hb1, hb2, -⟩ := h2
  exact ⟨⟨h1.1, h1.2.1⟩, bytes, hb1, hb2⟩

/-- Embeds the `Tracker` enum of `tracker.rs`. -/
inductive Tracker where
  | Generic
  | ProTracker
  | NoiseTracker
  | FastTracker
  | TakeTracker
  | Startrekker
  | Falcon
  | Oktalyzer
  | UltimateSoundTracker
  | FastOrNoiseTracker
deriving Repr, DecidableEq

/-- Embeds the `Sample` metadata record of `song.rs`; the name string is
kept as its byte sequence. -/
structure Sample where
  name : List Nat
  length : Nat
  finetune : Int
  volume : Nat
  repeat_offset : Nat
  repeat_length : Nat
deriving Repr, DecidableEq

/-- The `KNOWN_TAGS` table of `detect_sample_count` (`modfile.rs`), each
4-character tag as its ASCII byte sequence, in source order. -/
def KNOWN_TAGS : List (List Nat) :=
  [[77, 46, 75, 46], [77, 33, 75, 33], [70, 76, 84, 52], [70, 76, 84, 56],
   [67, 68, 56, 49], [50, 67, 72, 78], [52, 67, 72, 78], [54, 67, 72, 78],
   [56, 67, 72, 78], [49, 48, 67, 72], [49, 50, 67, 72], [49, 52, 67, 72],
   [49, 54, 67, 72], [49, 56, 67, 72], [50, 48, 67, 72], [50, 50, 67, 72],
   [50, 52, 67, 72], [50, 54, 67, 72], [50, 56, 67, 72], [51, 48, 67, 72],
   [51, 50, 67, 72], [49, 49, 67, 72], [49, 51, 67, 72], [49, 53, 67, 72],
   [84, 68, 90, 49], [84, 68, 90, 50], [84, 68, 90, 51], [53, 67, 72, 78],
   [55, 67, 72, 78], [57, 67, 72, 78]]

/-- Embeds `detect_sample_count` (`modfile.rs`): a known tag, or any tag of
printable ASCII characters, classifies the file as the 31-instrument
layout; everything else as the 15-instrument layout. -/
def detect_sample_count (format_tag : List Nat) : Nat :=
  if KNOWN_TAGS.contains format_tag then 31
  else if format_tag.all (fun c => decide (c ≠ 0 ∧ 32 ≤ c ∧ c ≤ 126)) then 31
  else 15

/-- Embeds `guess_channel_count` (`modfile.rs`).  The chain of `u32`
subtractions is modelled as wrapping (two's-complement) arithmetic via
integer subtraction reduced mod `2^32`; `file_size as u32` truncates; the
final `as u8` cast truncates mod 256.  The division by `pattern_count`
faults in Rust when it is zero, but `parse` always passes
`max(pattern_table) + 1 ≥ 1`; Lean's `x / 0 = 0` convention is never
exercised by any theorem below. -/
def guess_channel_count (file_size : Nat) (sample_meta : List Sample) (pattern_count : Nat) : Nat :=
  let sample_count := sample_meta.length
  let song_metadata_size : Nat := 128 + 20 + 2
  let sample_meta_size : Nat := 30 * sample_count
  let format_size : Nat := if sample_count = 31 then 4 else 0
  let sample_pcm_size : Nat := (sample_meta.map (fun s => s.length)).sum
  let pattern_data_left : Nat :=
    (((file_size % 2 ^ 32 : Int) - song_metadata_size - sample_meta_size - format_size
      - sample_pcm_size).emod (2 ^ 32)).toNat
  ((pattern_data_left / pattern_count) / (64 * 4)) % 256

/-- Embeds `tag[0..2].parse::<u8>()` from `identify_format_and_channels`,
at the byte level: two ASCII digits, or an ASCII `+` followed by one digit,
parse to a value which must fit in `u8` (automatic for at most two
digits). -/
def parse_two_digit (a b : Nat) : Option Nat :=
  if 48 ≤ a ∧ a ≤ 57 ∧ 48 ≤ b ∧ b ≤ 57 then
    some ((a - 48) * 10 + (b - 48))
  else if a = 43 ∧ 48 ≤ b ∧ b ≤ 57 then
    some (b - 48)
  else none

/-- Embeds `identify_format_and_channels` (`modfile.rs`): the explicit tag
table, then the `yyCH` FastTracker detection, then the size-derived
fallback.  Tags are ASCII byte sequences; `ends_with("CH")` is the byte
suffix `[67, 72]`. -/
def identify_format_and_channels (tag : List Nat) (file_size : Nat)
    (sample_metadata : List Sample) (pattern_count : Nat) : Nat × Tracker :=
  if tag = [77, 46, 75, 46] ∨ tag = [77, 33, 75, 33] then (4, .ProTracker)
  else if tag = [70, 76, 84, 52] then (4, .Startrekker)
  else if tag = [70, 76, 84, 56] then (8, .Startrekker)
  else if tag = [67, 68, 56, 49] then (8, .Falcon)
  else if tag = [79, 67, 84, 65] then (8, .Oktalyzer)
  else if tag = [50, 67, 72, 78] then (2, .FastTracker)
  else if tag = [52, 67, 72, 78] then (4, .FastOrNoiseTracker)
  else if tag = [54, 67, 72, 78] then (6, .FastTracker)
  else if tag = [56, 67, 72, 78] then (8, .FastTracker)
  else if tag = [84, 68, 90, 49] then (1, .TakeTracker)
  else if tag = [84, 68, 90, 50] then (2, .TakeTracker)
  else if tag = [84, 68, 90, 51] then (3, .TakeTracker)
  else if tag = [53, 67, 72, 78] then (5, .TakeTracker)
  else if tag = [55, 67, 72, 78] then (7, .TakeTracker)
  else if tag = [57, 67, 72, 78] then (9, .TakeTracker)
  else if tag = [49, 49, 67, 72] then (11, .TakeTracker)
  else if tag = [49, 51, 67, 72] then (13, .TakeTracker)
  else if tag = [49, 53, 67, 72] then (15, .TakeTracker)
  else
    let detected : Option (Nat × Tracker) :=
      if ([67, 72] : List Nat).isSuffixOf tag then
        match tag with
        | a :: b :: _ =>
          match parse_two_digit a b with
          | some yy =>
            if 10 ≤ yy ∧ yy ≤ 32 ∧ yy % 2 = 0 then some (yy, .FastTracker) else none
          | none => none
        | _ => none
      else none
    match detected with
    | some result => result
    | none => (guess_channel_count file_size sample_metadata pattern_count, .Generic)

/-- C7: any tag of the form `NNCH` with `NN` a two-digit even number in
`10..=32` — none of which appears in the explicit tag table — resolves to
channel count `NN` with tracker variant FastTracker, for every file size,
instrument table and pattern count (the size-derived fallback is not
consulted). -/
theorem nnch_channel_count (n : Nat) (h10 : 10 ≤ n) (h32 : n ≤ 32) (heven : n % 2 = 0)
    (file_size pattern_count : Nat) (sample_metadata : List Sample) :
    identify_format_and_channels [48 + n / 10, 48 + n % 10, 67, 72]
      file_size sample_metadata pattern_count = (n, .FastTracker) := by
  interval_cases n <;> first
    | rfl
    | exact absurd heven (by decide)

/-- C7 witness: the unlisted tag `14CH` resolves to 14 channels and
FastTracker. -/
theorem nnch_channel_count_witness :
    identify_format_and_channels [49, 52, 67, 72] 0 [] 1 = (14, .FastTracker) :=
  nnch_channel_count 14 (by decide) (by decide) (by decide) 0 1 []

/-- Embeds the `Note` record of `song.rs`: 8-bit instrument reference,
12-bit period, 4-bit effect code, 8-bit effect argument. -/
structure Note where
  sample : Nat
  period : Nat
  effect : Nat
  argument : Nat
deriving Repr, DecidableEq

/-- Embeds the bit unpacking of `read_note` (`modfile.rs`) on the four raw
bytes, with each `u8` mask/shift written in `%`/`/` arithmetic:

  `sample = (bytes[0] & 0xF0) | ((bytes[2] & 0xF0) >> 4)` — the two masked
  operands occupy disjoint bit ranges, so the `|` is addition;
  `period = ((bytes[0] & 0x0F) << 8) | bytes[1]`;
  `effect = bytes[2] & 0x0F`; `argument = bytes[3]`. -/
def read_note_fields (b0 b1 b2 b3 : Nat) : Note :=
  { sample := (b0 % 256 / 16) * 16 + b2 % 256 / 16
    period := (b0 % 16) * 256 + b1 % 256
    effect := b2 % 16
    argument := b3 % 256 }

/-- Embeds `read_note` (`modfile.rs`): four bytes from the reader, then the
bit unpacking. -/
def read_note (r : ByteReader) : Except SongError Note × ByteReader :=
  match r.read_bytes 4 with
  | (.error e, r1) => (.error e, r1)
  | (.ok bytes, r1) =>
    (.ok (read_note_fields (bytes.getD 0 0) (bytes.getD 1 0) (bytes.getD 2 0) (bytes.getD 3 0)), r1)

/-- Modelled from the spec: the note bit-packing layout in the encoding
direction (spec §4.2 step 8 and the §8 bijection property) — the source has
no encoder, so this definition follows the spec's words: byte 0 holds the
instrument's high nibble and the period's high 4 bits, byte 1 the period's
low 8 bits, byte 2 the instrument's low nibble and the effect code, byte 3
the argument. -/
def encode_note (n : Note) : Nat × Nat × Nat × Nat :=
  ((n.sample / 16) * 16 + n.period / 256,
   n.period % 256,
   (n.sample % 16) * 16 + n.effect,
   n.argument)

/-- C8: the note packing is a bijection on its documented subfields.
Decoding any 4 bytes and re-encoding by the documented layout reproduces
the original bytes, and encoding any `Note` with `sample < 256`,
`period < 4096`, `effect < 16`, `argument < 256` and decoding reproduces
the note, with the decoded fields given by the documented nibble
concatenations. -/
theorem note_packing_bijection :
    (∀ b0 b1 b2 b3 : Nat, b0 < 256 → b1 < 256 → b2 < 256 → b3 < 256 →
      encode_note (read_note_fields b0 b1 b2 b3) = (b0, b1, b2, b3))
    ∧ (∀ n : Note, n.sample < 256 → n.period < 4096 → n.effect < 16 → n.argument < 256 →
      read_note_fields (encode_note n).1 (encode_note n).2.1 (encode_note n).2.2.1
        (encode_note n).2.2.2 = n) := by
  constructor
  · intro b0 b1 b2 b3 h0 h1 h2 h3
    simp only [encode_note, read_note_fields, Prod.mk.injEq]
    refine ⟨?_, ?_, ?_, ?_⟩ <;> omega
  · intro n hs hp he ha
    obtain ⟨s, p, e, a⟩ := n
    simp only [encode_note, read_note_fields, Note.mk.injEq] at *
    refine ⟨?_, ?_, ?_, ?_⟩ <;> omega

/-- C8 witness: round-tripping the concrete byte quadruple
`0x12 0x34 0x56 0x78` through decode then encode reproduces it. -/
theorem note_packing_bijection_witness :
    encode_note (read_note_fields 0x12 0x34 0x56 0x78) = (0x12, 0x34, 0x56, 0x78) :=
  note_packing_bijection.1 0x12 0x34 0x56 0x78 (by decide) (by decide) (by decide) (by decide)

/-- Embeds the opening of `parse` (`modfile.rs`) up to the sample-count
classification: the guard `reader.seek(1080)` whose failure aborts with a
Read fault, then the soft-failing 4-byte tag read at offset 1080 whose
failure is replaced by a tag of four NUL characters, then
`detect_sample_count` on the resulting tag. -/
def parse_tag_stage (data : List Nat) : Except SongError Nat :=
  match (ByteReader.new data .BigEndian).seek 1080 with
  | .error _ => .error .ReadFault
  | .ok (_, r1) =>
    let format :=
      match r1.read_str 4 with
      | (.ok s, _) => s
      | (.error _, _) => [0, 0, 0, 0]
    .ok (detect_sample_count format)

/-- Unfolding of the initial seek of `parse_tag_stage` on a fresh reader. -/
theorem seek_new_1080 (data : List Nat) :
    (ByteReader.new data .BigEndian).seek 1080
      = if 1080 > data.length then .error .ReadFault
        else .ok (0, { data := data, position := 1080, encoding := .BigEndian }) := rfl

/-- The 4-byte tag read at offset 1080 fails, reader unchanged, when the
buffer ends before offset 1084. -/
theorem read_str_tag_short (data : List Nat) (h : data.length < 1084) :
    ByteReader.read_str { data := data, position := 1080, encoding := .BigEndian } 4
      = (.error .ReadFault, { data := data, position := 1080, encoding := .BigEndian }) := by
  unfold ByteReader.read_str ByteReader.read_bytes
  rw [if_pos (show 1080 + 4 > data.length by omega)]

/-- C6 counterexample: on a concrete 1079-byte input — shorter than 1080
bytes, so the tag peek is out of range — `parse` aborts at the preliminary
seek with a Read fault; it does not proceed to classify the file as the
15-instrument layout. -/
theorem parse_short_aborts_cex :
    parse_tag_stage (List.replicate 1079 0) ≠ .ok 15
    ∧ parse_tag_stage (List.replicate 1079 0) = .error .ReadFault
    ∧ (List.replicate 1079 (0 : Nat)).length < 1080 := by
  have he : parse_tag_stage (List.replicate 1079 0) = .error .ReadFault := by
    unfold parse_tag_stage
    rw [seek_new_1080, if_pos (by rw [List.length_replicate]; omega)]
  exact ⟨by rw [he]; exact fun h => Except.noConfusion h, he,
    by rw [List.length_replicate]; omega⟩

/-- C6 amended: for every input shorter than 1080 bytes, `parse` aborts
with a Read fault at the preliminary `seek(1080)` guard; the soft-fail
empty-tag path applies only to inputs of at least 1080 but fewer than 1084
bytes, where the 4-byte tag read fails, the tag is taken as four NUL
characters, and the file is classified as the 15-instrument layout. -/
theorem parse_tag_stage_behavior (data : List Nat) :
    (data.length < 1080 → parse_tag_stage data = .error .ReadFault)
    ∧ (1080 ≤ data.length → data.length < 1084 → parse_tag_stage data = .ok 15) := by
  constructor
  · intro h
    unfold parse_tag_stage
    rw [seek_new_1080, if_pos (by omega)]
  · intro h1 h2
    unfold parse_tag_stage
    rw [seek_new_1080, if_neg (by omega)]
    dsimp only
    rw [read_str_tag_short data h2]
    rfl

/-- C6 amended witness: a 500-byte input aborts; a 1080-byte input is
classified as the 15-instrument layout via the empty tag. -/
theorem parse_tag_stage_behavior_witness :
    parse_tag_stage (List.replicate 500 0) = .error .ReadFault
    ∧ parse_tag_stage (List.replicate 1080 0) = .ok 15 :=
  ⟨(parse_tag_stage_behavior (List.replicate 500 0)).1
      (by rw [List.length_replicate]; omega),
   (parse_tag_stage_behavior (List.replicate 1080 0)).2
      (by rw [List.length_replicate]) (by rw [List.length_replicate]; omega)⟩

/-- Embeds the tick-0 trigger logic for one channel from `ModEngine::next_tick`
(`mod_engine.rs`, the body of `if self.tick == 0` for one `(index, channel)`
pair).  Indexing `self.song.metadata.samples[new_sample_index - 1]` out of
bounds panics in Rust and is modelled by `none`.  The `f32` assignments
`position_in_sample = 0.0` and `sample_step = 0.0` are modelled by the
integer cursor reset (the step field is omitted from the state, see
`ChannelState`). -/
def trigger_channel (note : Note) (samples_meta : List Sample) (ch : ChannelState) :
    Option ChannelState :=
  let new_period := note.period
  let nsi0 := note.sample
  if new_period ≠ 0 then
    let nsi := if nsi0 = 0 then ch.sample_index else nsi0
    let ch1 := { ch with position_in_sample := 0, base_period := new_period, arp_counter := 0 }
    let afterMeta : Option ChannelState :=
      if nsi > 0 then
        match samples_meta.get? (nsi - 1) with
        | none => none
        | some m =>
          some { ch1 with repeat_offset := m.repeat_offset, repeat_length := m.repeat_length,
                          volume := min m.volume 64, sample_index := nsi - 1 }
      else some ch1
    match afterMeta with
    | none => none
    | some ch2 =>
      some { ch2 with effect := note.effect, effect_arg := note.argument,
                      period := ch2.base_period }
  else if nsi0 ≠ 0 then
    match samples_meta.get? (nsi0 - 1) with
    | none => none
    | some m =>
      some { ch with repeat_offset := m.repeat_offset, repeat_length := m.repeat_length,
                     volume := min m.volume 64, sample_index := nsi0 - 1,
                     effect := note.effect, effect_arg := note.argument }
  else
    some { ch with effect := note.effect, effect_arg := note.argument }

/-- A blank instrument-metadata record, used to build concrete 31-entry
tables. -/
def blank_sample : Sample :=
  { name := [], length := 0, finetune := 0, volume := 0, repeat_offset := 0, repeat_length := 0 }

/-- C10: the byte quadruple `F0 00 F0 00` decodes to a note whose
instrument reference is 255 (the field is 8 bits wide), and triggering that
note against a full 31-entry instrument-metadata table makes the tick-0
logic of `next_tick` index the metadata vector out of bounds and fault
(`none`), rather than ignore the reference or degrade the channel to
silence; likewise for a variant of the note that also carries a nonzero
period. -/
theorem trigger_out_of_range_faults :
    read_note_fields 0xF0 0x00 0xF0 0x00 = { sample := 255, period := 0, effect := 0, argument := 0 }
    ∧ trigger_channel { sample := 255, period := 0, effect := 0, argument := 0 }
        (List.replicate 31 blank_sample) ChannelState.default = none
    ∧ trigger_channel { sample := 255, period := 428, effect := 0, argument := 0 }
        (List.replicate 31 blank_sample) ChannelState.default = none := by
  refine ⟨by decide, by decide, by decide⟩

end Rustune
